import Mathlib

/-!
Verification of the SageMaker endpoint lifecycle manager
(`cleanup.py`, `deploy_model.py`) via a shallow embedding in Lean 4.

Remote calls are modelled by explicit oracles: a `CleanupClient` (resp.
`DeployEnv`) records, for each fallible remote operation, whether it
succeeds or raises.  Functions that print and swallow exceptions are
embedded as total Lean functions returning their Python return value
together with a trace of the remote calls they attempted, so that
properties about "which deletions were attempted" are statable.
-/

namespace SMDeploy

/-- An endpoint descriptor as returned by `list_endpoints`
(`EndpointName`, `EndpointStatus`, `CreationTime`). -/
structure Endpoint where
  endpointName : String
  endpointStatus : String
  creationTime : String
deriving DecidableEq, Repr

/-- One production variant of an endpoint config
(`InstanceType`, `InitialInstanceCount`). -/
structure Variant where
  instanceType : String
  initialInstanceCount : Nat
deriving DecidableEq, Repr

/-- Oracle for the remote SageMaker control plane as seen by
`SageMakerCleanup`: the outcome of each fallible boto3 call. -/
structure CleanupClient where
  /-- result of `sagemaker_client.list_endpoints(MaxResults=50)`:
  either the `Endpoints` list or a raised exception message. -/
  listResult : Except String (List Endpoint)
  /-- whether `sagemaker_client.delete_endpoint(EndpointName=n)` succeeds. -/
  deleteEndpointOk : String → Bool
  /-- whether `sagemaker_client.delete_endpoint_config(EndpointConfigName=n)`
  succeeds. -/
  deleteConfigOk : String → Bool
  /-- result of `sagemaker_client.describe_endpoint_config(EndpointConfigName=n)`:
  the `ProductionVariants` list, or a raised exception message. -/
  describeConfig : String → Except String (List Variant)

/-- A remote call attempted by the cleanup manager, with its outcome. -/
inductive CleanupEvent where
  | deleteEndpointCall (name : String) (ok : Bool)
  | deleteConfigCall (name : String) (ok : Bool)
deriving DecidableEq, Repr

/-- `SageMakerCleanup.list_all_endpoints` (cleanup.py:16-33): returns the
listed endpoints; any exception is caught, printed, and turned into `[]`. -/
def list_all_endpoints (c : CleanupClient) : List Endpoint :=
  match c.listResult with
  | .ok endpoints => endpoints
  | .error _ => []

/-- `SageMakerDeployer.list_endpoints` (deploy_model.py:137-157): lists
InService endpoints; any exception is caught, printed, and turned into `[]`.
The oracle's `listResult` here stands for the `StatusEquals` filtered call. -/
def deployer_list_endpoints (listResult : Except String (List Endpoint)) :
    List Endpoint :=
  match listResult with
  | .ok endpoints => endpoints
  | .error _ => []

/-- Spec-side contract for `listEndpoints` (spec §4.1): propagates the
transport/auth failure as an error instead of swallowing it.  Written from
the spec's words, for comparison with `list_all_endpoints` above. -/
def listEndpoints_specContract (c : CleanupClient) :
    Except String (List Endpoint) :=
  c.listResult

/-- `SageMakerCleanup.delete_endpoint` (cleanup.py:35-54).  Returns the
Python return value and the trace of remote calls: the endpoint deletion is
attempted; on success, if `delete_config`, the config deletion is attempted
inside its own try/except whose failure is only printed. -/
def delete_endpoint (c : CleanupClient) (endpoint_name : String)
    (delete_config : Bool := true) : Bool × List CleanupEvent :=
  if c.deleteEndpointOk endpoint_name then
    if delete_config then
      (true, [CleanupEvent.deleteEndpointCall endpoint_name true,
              CleanupEvent.deleteConfigCall endpoint_name
                (c.deleteConfigOk endpoint_name)])
    else
      (true, [CleanupEvent.deleteEndpointCall endpoint_name true])
  else
    (false, [CleanupEvent.deleteEndpointCall endpoint_name false])

/-- Python's `str.lower()` as used on the confirmation answer
(cleanup.py:69), modelled characterwise. -/
def pyLower (s : String) : String :=
  ⟨s.data.map Char.toLower⟩

/-- One iteration of the deletion loop of `delete_all_endpoints`
(cleanup.py:74-76): attempt deletion (config deletion included, the Python
default) and bump `success_count` when it returns true. -/
def deleteStep (c : CleanupClient) (acc : Nat × List CleanupEvent)
    (ep : Endpoint) : Nat × List CleanupEvent :=
  let r := delete_endpoint c ep.endpointName true
  (acc.1 + (if r.1 then 1 else 0), acc.2 ++ r.2)

/-- `SageMakerCleanup.delete_all_endpoints` (cleanup.py:56-79).
`confirm` is the keyword argument; `confirmationInput` is what `input()`
would return (only consulted when `confirm` is true).  Returns the Python
return value, the final `success_count`, and the trace of remote calls. -/
def delete_all_endpoints (c : CleanupClient) (confirm : Bool)
    (confirmationInput : String) : Bool × Nat × List CleanupEvent :=
  let endpoints := list_all_endpoints c
  if endpoints.isEmpty then
    (true, 0, [])
  else if confirm && !(pyLower confirmationInput == "yes") then
    (false, 0, [])
  else
    let folded := endpoints.foldl (deleteStep c) (0, [])
    (folded.1 == endpoints.length, folded.1, folded.2)

/-- The static per-hour cost table of `estimate_costs` (cleanup.py:113-124),
US East 1 pricing, in exact rationals. -/
def instance_costs : List (String × ℚ) :=
  [("ml.g4dn.xlarge", 0.736),
   ("ml.g4dn.2xlarge", 0.94),
   ("ml.g4dn.4xlarge", 1.505),
   ("ml.g5.xlarge", 1.408),
   ("ml.g5.2xlarge", 1.515),
   ("ml.g5.4xlarge", 2.03),
   ("ml.g5.8xlarge", 3.06),
   ("ml.p3.2xlarge", 3.825),
   ("ml.p3.8xlarge", 14.688),
   ("ml.p3.16xlarge", 28.152)]

/-- `instance_costs.get(instance_type, 2.0)` (cleanup.py:136): rate lookup
with default 2.0 for unknown instance types. -/
def rate (instance_type : String) : ℚ :=
  (instance_costs.lookup instance_type).getD 2

/-- Hourly cost of one production variant (cleanup.py:136):
`instance_costs.get(instance_type, 2.0) * instance_count`. -/
def variantCost (v : Variant) : ℚ :=
  rate v.instanceType * v.initialInstanceCount

/-- Hourly cost contributed by one endpoint config: the sum over its
`ProductionVariants` of `variantCost` (the inner loop of cleanup.py:133-137). -/
def endpointHourly (variants : List Variant) : ℚ :=
  (variants.map variantCost).sum

/-- `SageMakerCleanup.estimate_costs` (cleanup.py:100-158): lists endpoints,
keeps the InService ones, returns 0 when none are active, and otherwise sums
each active endpoint's config cost; an endpoint whose
`describe_endpoint_config` raises is skipped (contributes nothing). -/
def estimate_costs (c : CleanupClient) : ℚ :=
  let endpoints := list_all_endpoints c
  let active := endpoints.filter (fun ep => ep.endpointStatus == "InService")
  if active.isEmpty then 0
  else
    (active.map (fun ep =>
      match c.describeConfig ep.endpointName with
      | .ok variants => endpointHourly variants
      | .error _ => 0)).sum

/-- A minimal JSON value model for the `endpoint_info.json` record:
objects with string or null leaves suffice for what this program writes. -/
inductive Json where
  | null
  | str (s : String)
  | obj (fields : List (String × Json))
deriving Repr

/-- Field access on a JSON object, i.e. Python's `dict.get(key)`:
`none` when the key is absent or the value is not an object. -/
def Json.get : Json → String → Option Json
  | .obj fields, key => fields.lookup key
  | _, _ => none

/-- The record written by `deploy_model.main` (deploy_model.py:174-180):
`{"endpoint_name": ..., "instance_type": ..., "region": ..., "deployed_at": ...}`,
where `instance_type` comes from `os.getenv` and may be null. -/
def endpointInfoJson (endpoint_name : String) (instance_type : Option String)
    (region : String) (deployed_at : String) : Json :=
  Json.obj
    [("endpoint_name", Json.str endpoint_name),
     ("instance_type", (instance_type.map Json.str).getD Json.null),
     ("region", Json.str region),
     ("deployed_at", Json.str deployed_at)]

/-- `SageMakerCleanup.delete_endpoint_from_file` (cleanup.py:81-98).
`file` is the outcome of opening and JSON-decoding `info_file` (`.error` for
FileNotFoundError or a decode error).  `endpoint_info.get('endpoint_name')`
must be present and truthy (a non-empty string) for deletion to proceed;
otherwise the function prints a message and returns false. -/
def delete_endpoint_from_file (c : CleanupClient)
    (file : Except String Json) : Bool × List CleanupEvent :=
  match file with
  | .error _ => (false, [])
  | .ok endpoint_info =>
    match endpoint_info.get "endpoint_name" with
    | some (Json.str name) =>
        if name ≠ "" then delete_endpoint c name true else (false, [])
    | _ => (false, [])

/-- Outcome dict of `SageMakerDeployer.deploy_model` (deploy_model.py:111-122):
`{"status": "success", "endpoint_name": ...}` or `{"status": "failed", "error": ...}`. -/
inductive DeployResult where
  | success (endpoint_name : String)
  | failed (error : String)
deriving DecidableEq, Repr

/-- A remote call attempted by the deployer, with its outcome. -/
inductive DeployEvent where
  /-- `huggingface_model.deploy(...)` for the given endpoint name. -/
  | createEndpoint (name : String) (ok : Bool)
  /-- `predictor.predict(test_payload)` — the smoke test. -/
  | predictCall (ok : Bool)
  /-- a teardown of the endpoint (`SageMakerDeployer.delete_endpoint`) —
  `deploy_model` has no code path emitting this. -/
  | rollbackDelete (name : String)
deriving DecidableEq, Repr

/-- Whether an event is a smoke-test invocation. -/
def isPredictCall : DeployEvent → Bool
  | DeployEvent.predictCall _ => true
  | _ => false

/-- Oracle for the remote platform as seen by `SageMakerDeployer.deploy_model`
and `deploy_model.main`. -/
structure DeployEnv where
  /-- outcome of `huggingface_model.deploy(...)`: ok, or a raised message. -/
  createOk : Except String Unit
  /-- outcome of `predictor.predict(test_payload)`: ok, or a raised message. -/
  predictOk : Except String Unit
  /-- whether writing `endpoint_info.json` (open + json.dump) succeeds. -/
  writeOk : Bool

/-- `SageMakerDeployer.deploy_model` (deploy_model.py:37-122) for a given
(resolved) endpoint name: creates the endpoint; on creation failure the
outer except returns the failed dict.  On success, runs the smoke test
exactly once inside its own try/except whose failure is only printed, then
returns the success dict regardless of the smoke-test outcome. -/
def deploy_model (env : DeployEnv) (endpoint_name : String) :
    DeployResult × List DeployEvent :=
  match env.createOk with
  | .error e =>
      (DeployResult.failed e, [DeployEvent.createEndpoint endpoint_name false])
  | .ok _ =>
      (DeployResult.success endpoint_name,
       [DeployEvent.createEndpoint endpoint_name true,
        DeployEvent.predictCall (env.predictOk matches .ok _)])

/-- An observable step of `deploy_model.main` (deploy_model.py:159-184). -/
inductive MainEvent where
  /-- the success report: `Deployment completed! Endpoint: <name>` prints. -/
  | reportSuccess (name : String)
  /-- the attempt to write `endpoint_info.json` for this name, with outcome. -/
  | writeRecord (name : String) (ok : Bool)
  /-- a teardown of the endpoint — `main` has no code path emitting this. -/
  | rollbackDelete (name : String)
deriving DecidableEq, Repr

/-- `deploy_model.main` (deploy_model.py:159-184): deploys; when the result
dict has status success, prints the completion report with the endpoint
name, then writes `endpoint_info.json`.  A write failure is an uncaught
exception: `main` raises (modelled as `.error`) instead of returning the
result — after the success report was already emitted — and performs no
rollback.  Returns the raised-or-returned outcome and the event trace. -/
def deploy_main (env : DeployEnv) (endpoint_name : String) :
    Except String DeployResult × List MainEvent :=
  let r := deploy_model env endpoint_name
  match r.1 with
  | DeployResult.success name =>
      if env.writeOk then
        (Except.ok r.1,
         [MainEvent.reportSuccess name, MainEvent.writeRecord name true])
      else
        (Except.error "record write failed",
         [MainEvent.reportSuccess name, MainEvent.writeRecord name false])
  | DeployResult.failed _ => (Except.ok r.1, [])

/-- The endpoint names whose deletion was attempted in a trace, in order. -/
def attemptedDeletions : List CleanupEvent → List String
  | [] => []
  | CleanupEvent.deleteEndpointCall n _ :: rest => n :: attemptedDeletions rest
  | CleanupEvent.deleteConfigCall _ _ :: rest => attemptedDeletions rest

lemma attemptedDeletions_append (xs ys : List CleanupEvent) :
    attemptedDeletions (xs ++ ys) =
      attemptedDeletions xs ++ attemptedDeletions ys := by
  induction xs with
  | nil => rfl
  | cons x rest ih => cases x <;> simp [attemptedDeletions, ih]

/-- The return value of `delete_endpoint` is exactly the outcome of the
endpoint-deletion call, whatever the config-deletion outcome. -/
lemma delete_endpoint_fst (c : CleanupClient) (name : String)
    (delete_config : Bool) :
    (delete_endpoint c name delete_config).1 = c.deleteEndpointOk name := by
  unfold delete_endpoint
  by_cases h : c.deleteEndpointOk name <;> cases delete_config <;> simp [h]

/-- `delete_endpoint` with config deletion attempts exactly one endpoint
deletion, recorded first in its trace. -/
lemma delete_endpoint_trace (c : CleanupClient) (name : String) :
    attemptedDeletions (delete_endpoint c name true).2 = [name] := by
  unfold delete_endpoint
  by_cases h : c.deleteEndpointOk name <;> simp [h, attemptedDeletions]

/-- Unrolling the deletion loop: the final count adds one per endpoint whose
deletion call succeeds, and the trace attempts every endpoint in order. -/
lemma foldl_deleteStep (c : CleanupClient) (l : List Endpoint)
    (n : Nat) (evs : List CleanupEvent) :
    (l.foldl (deleteStep c) (n, evs)).1 =
        n + l.countP (fun ep => c.deleteEndpointOk ep.endpointName) ∧
    attemptedDeletions (l.foldl (deleteStep c) (n, evs)).2 =
        attemptedDeletions evs ++ l.map Endpoint.endpointName := by
  induction l generalizing n evs with
  | nil => simp [List.countP, List.countP.go]
  | cons ep rest ih =>
      have hstep : deleteStep c (n, evs) ep =
          (n + (if c.deleteEndpointOk ep.endpointName then 1 else 0),
           evs ++ (delete_endpoint c ep.endpointName true).2) := by
        simp [deleteStep, delete_endpoint_fst]
      have h := ih (n + (if c.deleteEndpointOk ep.endpointName then 1 else 0))
        (evs ++ (delete_endpoint c ep.endpointName true).2)
      constructor
      · rw [List.foldl_cons, hstep, h.1, List.countP_cons]
        by_cases hep : c.deleteEndpointOk ep.endpointName <;>
          (simp [hep]; try omega)
      · rw [List.foldl_cons, hstep, h.2, attemptedDeletions_append,
            delete_endpoint_trace]
        simp

/-- Running `delete_all_endpoints` past the guards: with a non-empty listing
and the confirmation gate passed (not required, or answered affirmatively),
the function is the deletion loop over the listing. -/
lemma delete_all_run (c : CleanupClient) (l : List Endpoint)
    (confirm : Bool) (s : String)
    (hl : c.listResult = Except.ok l) (hne : l ≠ [])
    (hconf : confirm = false ∨ pyLower s = "yes") :
    delete_all_endpoints c confirm s =
      (((l.foldl (deleteStep c) (0, [])).1 == l.length),
       (l.foldl (deleteStep c) (0, [])).1,
       (l.foldl (deleteStep c) (0, [])).2) := by
  have h1 : l.isEmpty = false := by
    cases l with
    | nil => exact absurd rfl hne
    | cons a t => rfl
  have h2 : (confirm && !(pyLower s == "yes")) = false := by
    rcases hconf with h | h <;> simp [h]
  unfold delete_all_endpoints list_all_endpoints
  rw [hl]
  simp only [h1, h2, Bool.false_eq_true, if_false]

/-- A three-endpoint remote state in which deleting `ep2` fails and the
other deletions succeed (the spec's 2-of-3 scenario). -/
def threeEpClient : CleanupClient :=
  { listResult := Except.ok
      [⟨"ep1", "InService", "t1"⟩, ⟨"ep2", "InService", "t2"⟩,
       ⟨"ep3", "InService", "t3"⟩],
    deleteEndpointOk := fun n => !(n == "ep2"),
    deleteConfigOk := fun _ => true,
    describeConfig := fun _ => Except.error "no such config" }

end SMDeploy

namespace SMDeploy

/-- C2: with a non-empty listing and confirmation given (or not required),
`delete_all_endpoints` attempts every listed endpoint in listing order with
no early abort, its reported `success_count` counts exactly the endpoints
whose deletion call succeeded, and it returns true iff all succeeded. -/
theorem deleteAll_attempts_all_counts_and_iff (c : CleanupClient)
    (l : List Endpoint) (confirm : Bool) (s : String)
    (hl : c.listResult = Except.ok l) (hne : l ≠ [])
    (hconf : confirm = false ∨ pyLower s = "yes") :
    attemptedDeletions (delete_all_endpoints c confirm s).2.2 =
        l.map Endpoint.endpointName ∧
    (delete_all_endpoints c confirm s).2.1 =
        l.countP (fun ep => c.deleteEndpointOk ep.endpointName) ∧
    ((delete_all_endpoints c confirm s).1 = true ↔
        ∀ ep ∈ l, c.deleteEndpointOk ep.endpointName = true) := by
  have hrun := delete_all_run c l confirm s hl hne hconf
  have hfold := foldl_deleteStep c l 0 []
  refine ⟨?_, ?_, ?_⟩
  · rw [hrun]
    simpa [attemptedDeletions] using hfold.2
  · rw [hrun]
    simpa using hfold.1
  · rw [hrun]
    have hc : (l.foldl (deleteStep c) (0, [])).1 =
        l.countP (fun ep => c.deleteEndpointOk ep.endpointName) := by
      simpa using hfold.1
    simp only [hc, beq_iff_eq]
    exact List.countP_eq_length

/-- C2 witness: the spec scenario on `threeEpClient` — all three endpoints
attempted in order, 2/3 reported, and the overall result is false. -/
theorem deleteAll_attempts_all_counts_and_iff_witness :
    attemptedDeletions (delete_all_endpoints threeEpClient true "yes").2.2 =
        ["ep1", "ep2", "ep3"] ∧
    (delete_all_endpoints threeEpClient true "yes").2.1 = 2 ∧
    (delete_all_endpoints threeEpClient true "yes").1 = false := by
  have h := deleteAll_attempts_all_counts_and_iff threeEpClient
    [⟨"ep1", "InService", "t1"⟩, ⟨"ep2", "InService", "t2"⟩,
     ⟨"ep3", "InService", "t3"⟩] true "yes" rfl (by decide) (Or.inr (by decide))
  refine ⟨by simpa using h.1, ?_, ?_⟩
  · rw [h.2.1]; decide
  · have := h.2.2
    by_cases hb : (delete_all_endpoints threeEpClient true "yes").1 = true
    · exact absurd ((this.mp hb) ⟨"ep2", "InService", "t2"⟩ (by decide)) (by decide)
    · simpa using hb

/-- C5: `delete_endpoint` returns true iff the endpoint-deletion call itself
succeeded; the config-deletion outcome (`c.deleteConfigOk`, which is
arbitrary here) never changes the return value. -/
theorem deleteOne_returns_endpoint_outcome (c : CleanupClient)
    (name : String) (delete_config : Bool) :
    (delete_endpoint c name delete_config).1 = c.deleteEndpointOk name :=
  delete_endpoint_fst c name delete_config

/-- C6: with confirmation required and declined (answer not lowercasing to
"yes") on a non-empty listing, `delete_all_endpoints` performs no remote
call at all and returns false with a zero count. -/
theorem deleteAll_declined_no_deletions (c : CleanupClient)
    (l : List Endpoint) (s : String)
    (hl : c.listResult = Except.ok l) (hne : l ≠ [])
    (hs : pyLower s ≠ "yes") :
    delete_all_endpoints c true s = (false, 0, []) := by
  have h1 : l.isEmpty = false := by
    cases l with
    | nil => exact absurd rfl hne
    | cons a t => rfl
  unfold delete_all_endpoints list_all_endpoints
  rw [hl]
  simp [h1, hs]

/-- C6 witness: declining with "no" on the three-endpoint state deletes
nothing and returns false. -/
theorem deleteAll_declined_no_deletions_witness :
    delete_all_endpoints threeEpClient true "no" = (false, 0, []) :=
  deleteAll_declined_no_deletions threeEpClient
    [⟨"ep1", "InService", "t1"⟩, ⟨"ep2", "InService", "t2"⟩,
     ⟨"ep3", "InService", "t3"⟩] "no" rfl (by decide) (by decide)

/-- C10: with confirmation required on a non-empty listing, deletions are
attempted iff the operator's answer, lowercased, is exactly "yes"; any
other answer yields zero deletions and a false return. -/
theorem deleteAll_confirm_iff_lower_yes (c : CleanupClient)
    (l : List Endpoint) (s : String)
    (hl : c.listResult = Except.ok l) (hne : l ≠ []) :
    (attemptedDeletions (delete_all_endpoints c true s).2.2 ≠ [] ↔
        pyLower s = "yes") ∧
    (pyLower s ≠ "yes" → delete_all_endpoints c true s = (false, 0, [])) := by
  constructor
  · constructor
    · intro hne2
      by_contra hs
      rw [deleteAll_declined_no_deletions c l s hl hne hs] at hne2
      exact hne2 rfl
    · intro hs
      have h := deleteAll_attempts_all_counts_and_iff c l true s hl hne
        (Or.inr hs)
      rw [h.1]
      simpa using hne
  · exact deleteAll_declined_no_deletions c l s hl hne

/-- C10 witness: on the three-endpoint state, "YES" (lowercased "yes")
proceeds; "y", "Yes please" and "" all decline with zero deletions. -/
theorem deleteAll_confirm_iff_lower_yes_witness :
    attemptedDeletions (delete_all_endpoints threeEpClient true "YES").2.2 ≠ [] ∧
    delete_all_endpoints threeEpClient true "y" = (false, 0, []) ∧
    delete_all_endpoints threeEpClient true "Yes please" = (false, 0, []) ∧
    delete_all_endpoints threeEpClient true "" = (false, 0, []) := by
  have hl : threeEpClient.listResult = Except.ok
      [⟨"ep1", "InService", "t1"⟩, ⟨"ep2", "InService", "t2"⟩,
       ⟨"ep3", "InService", "t3"⟩] := rfl
  refine ⟨?_, ?_, ?_, ?_⟩
  · exact (deleteAll_confirm_iff_lower_yes threeEpClient _ "YES" hl
      (by decide)).1.mpr (by decide)
  · exact (deleteAll_confirm_iff_lower_yes threeEpClient _ "y" hl
      (by decide)).2 (by decide)
  · exact (deleteAll_confirm_iff_lower_yes threeEpClient _ "Yes please" hl
      (by decide)).2 (by decide)
  · exact (deleteAll_confirm_iff_lower_yes threeEpClient _ "" hl
      (by decide)).2 (by decide)

/-- A remote state whose listing call raises (e.g. an auth failure). -/
def failListClient : CleanupClient :=
  { listResult := Except.error "AuthFailure",
    deleteEndpointOk := fun _ => true,
    deleteConfigOk := fun _ => true,
    describeConfig := fun _ => Except.error "AuthFailure" }

/-- A remote state with no endpoints at all. -/
def emptyListClient : CleanupClient :=
  { listResult := Except.ok [],
    deleteEndpointOk := fun _ => true,
    deleteConfigOk := fun _ => true,
    describeConfig := fun _ => Except.error "no such config" }

/-- A remote state with one InService endpoint whose config is a single
`ml.g5.xlarge` variant with instance count 2 (the spec's cost scenario). -/
def g5xClient : CleanupClient :=
  { listResult := Except.ok [⟨"ep-g5", "InService", "t0"⟩],
    deleteEndpointOk := fun _ => true,
    deleteConfigOk := fun _ => true,
    describeConfig := fun _ => Except.ok [⟨"ml.g5.xlarge", 2⟩] }

/-- C1 counterexample: in the code's rate table `ml.g5.xlarge` costs 1.408
(1.515 is the `ml.g5.2xlarge` rate), so the per-endpoint hourly cost for an
`ml.g5.xlarge` × 2 variant is not 3.03, neither at the variant level nor
through the whole `estimate_costs` pipeline. -/
theorem g5xlarge_cost_counterexample :
    endpointHourly [Variant.mk "ml.g5.xlarge" 2] ≠ 3.03 ∧
    estimate_costs g5xClient ≠ 3.03 := by
  have h1 : endpointHourly [Variant.mk "ml.g5.xlarge" 2] =
      rate "ml.g5.xlarge" * ((2 : Nat) : ℚ) + 0 := rfl
  have h2 : estimate_costs g5xClient =
      endpointHourly [Variant.mk "ml.g5.xlarge" 2] + 0 := rfl
  have hr : rate "ml.g5.xlarge" = 1.408 := rfl
  constructor
  · rw [h1, hr]; norm_num
  · rw [h2, h1, hr]; norm_num

/-- C1 amended: the rate-table value for `ml.g5.xlarge` is 1.408, so with
instance count 2 the per-endpoint hourly cost is 1.408 × 2 = 2.816 —
the rate-table value multiplied by the instance count, as both the variant
formula and the full `estimate_costs` pipeline compute. -/
theorem g5xlarge_cost_amended :
    rate "ml.g5.xlarge" = 1.408 ∧
    endpointHourly [Variant.mk "ml.g5.xlarge" 2] = 1.408 * 2 ∧
    (1.408 * 2 : ℚ) = 2.816 ∧
    estimate_costs g5xClient = 2.816 := by
  have h1 : endpointHourly [Variant.mk "ml.g5.xlarge" 2] =
      rate "ml.g5.xlarge" * ((2 : Nat) : ℚ) + 0 := rfl
  have h2 : estimate_costs g5xClient =
      endpointHourly [Variant.mk "ml.g5.xlarge" 2] + 0 := rfl
  have hr : rate "ml.g5.xlarge" = 1.408 := rfl
  refine ⟨hr, ?_, by norm_num, ?_⟩
  · rw [h1, hr]; norm_num
  · rw [h2, h1, hr]; norm_num

/-- C4 counterexample: the listing functions swallow a remote failure and
return `[]` — the very value an empty listing returns — so the call does
not fail with a `ClientError` and callers cannot distinguish "no
endpoints" from "listing failed". -/
theorem listEndpoints_counterexample :
    list_all_endpoints failListClient = list_all_endpoints emptyListClient ∧
    list_all_endpoints failListClient = [] ∧
    deployer_list_endpoints (Except.error "ConnectionError") =
      deployer_list_endpoints (Except.ok []) :=
  ⟨rfl, rfl, rfl⟩

/-- C4 amended: on a transport/auth failure both listing functions catch
the exception and return the empty sequence (rather than propagating the
error as the spec-side contract `listEndpoints_specContract` would), so
the empty result is indistinguishable from an empty listing; a successful
listing is returned unchanged. -/
theorem listEndpoints_amended (c : CleanupClient) (e : String)
    (l : List Endpoint) :
    (c.listResult = Except.error e → list_all_endpoints c = [] ∧
        listEndpoints_specContract c = Except.error e) ∧
    (c.listResult = Except.ok l → list_all_endpoints c = l) ∧
    deployer_list_endpoints (Except.error e) = [] ∧
    deployer_list_endpoints (Except.ok l) = l := by
  refine ⟨fun h => ⟨?_, h⟩, fun h => ?_, rfl, rfl⟩
  · unfold list_all_endpoints; rw [h]
  · unfold list_all_endpoints; rw [h]

/-- C4 amended witness: a failing listing and an empty listing both come
back as `[]`. -/
theorem listEndpoints_amended_witness :
    list_all_endpoints failListClient = [] ∧
    list_all_endpoints emptyListClient = [] :=
  ⟨((listEndpoints_amended failListClient "AuthFailure" []).1 rfl).1,
   (listEndpoints_amended emptyListClient "e" []).2.1 rfl⟩

/-- C7: an instance type absent from the rate table gets the fallback
default rate of 2.0 per hour, so the variant's cost is 2 × its instance
count and the cost estimation still yields a value on it. -/
theorem unknown_instance_type_default_rate (v : Variant)
    (h : instance_costs.lookup v.instanceType = none) :
    rate v.instanceType = 2 ∧
    variantCost v = 2 * (v.initialInstanceCount : ℚ) := by
  have hr : rate v.instanceType = 2 := by
    unfold rate; rw [h]; rfl
  exact ⟨hr, by unfold variantCost; rw [hr]⟩

/-- C7 witness: `ml.t2.medium` is not in the table; its rate is the
default 2 and a 3-instance variant costs 2 × 3 per hour. -/
theorem unknown_instance_type_default_rate_witness :
    instance_costs.lookup "ml.t2.medium" = none ∧
    rate "ml.t2.medium" = 2 ∧
    variantCost (Variant.mk "ml.t2.medium" 3) =
      2 * ((Variant.mk "ml.t2.medium" 3).initialInstanceCount : ℚ) := by
  have h := unknown_instance_type_default_rate (Variant.mk "ml.t2.medium" 3)
    (by decide)
  exact ⟨by decide, h.1, h.2⟩

/-- C8: the `endpoint_info.json` record written by the orchestrator's
`main` carries the deployed endpoint name under `endpoint_name`, and
`delete_endpoint_from_file` reads it back and delegates to
`delete_endpoint` on exactly that name. -/
theorem record_roundtrip (c : CleanupClient) (name : String)
    (instance_type : Option String) (region deployed_at : String)
    (hname : name ≠ "") :
    (endpointInfoJson name instance_type region deployed_at).get
        "endpoint_name" = some (Json.str name) ∧
    delete_endpoint_from_file c
        (Except.ok (endpointInfoJson name instance_type region deployed_at)) =
      delete_endpoint c name true := by
  constructor
  · rfl
  · unfold delete_endpoint_from_file
    simp only [Json.get, endpointInfoJson, List.lookup]
    simp [hname]

/-- C8 witness: a concrete record round-trips, yielding the same endpoint
name for deletion. -/
theorem record_roundtrip_witness :
    (endpointInfoJson "better-sql-agent-20240101-120000"
        (some "ml.g5.xlarge") "us-east-1" "2024-01-01T12:00:00").get
        "endpoint_name" =
      some (Json.str "better-sql-agent-20240101-120000") ∧
    delete_endpoint_from_file threeEpClient
        (Except.ok (endpointInfoJson "better-sql-agent-20240101-120000"
          (some "ml.g5.xlarge") "us-east-1" "2024-01-01T12:00:00")) =
      delete_endpoint threeEpClient "better-sql-agent-20240101-120000" true :=
  record_roundtrip threeEpClient "better-sql-agent-20240101-120000"
    (some "ml.g5.xlarge") "us-east-1" "2024-01-01T12:00:00" (by decide)

/-- A deployment environment where endpoint creation and the smoke test
succeed but writing `endpoint_info.json` fails. -/
def failWriteEnv : DeployEnv :=
  { createOk := Except.ok (), predictOk := Except.ok (), writeOk := false }

/-- A deployment environment where endpoint creation succeeds, the smoke
test raises (e.g. a read timeout), and the record write succeeds. -/
def failSmokeEnv : DeployEnv :=
  { createOk := Except.ok (), predictOk := Except.error "ReadTimeoutError",
    writeOk := true }

/-- C3: after a successful endpoint creation, a failed record write leaves
the deployment outcome at success with the endpoint name; `main` emits the
success report (with the name) before the failed write attempt, raises the
write failure as its own separate error, and never tears the endpoint
down. -/
theorem write_failure_keeps_deployment_success (env : DeployEnv)
    (name : String) (hcreate : env.createOk = Except.ok ())
    (hwrite : env.writeOk = false) :
    (deploy_model env name).1 = DeployResult.success name ∧
    (deploy_main env name).2 =
      [MainEvent.reportSuccess name, MainEvent.writeRecord name false] ∧
    (deploy_main env name).1 = Except.error "record write failed" ∧
    ∀ n, MainEvent.rollbackDelete n ∉ (deploy_main env name).2 := by
  have hm : deploy_model env name =
      (DeployResult.success name,
       [DeployEvent.createEndpoint name true,
        DeployEvent.predictCall (env.predictOk matches Except.ok _)]) := by
    unfold deploy_model; rw [hcreate]
  have hmain : deploy_main env name =
      (Except.error "record write failed",
       [MainEvent.reportSuccess name, MainEvent.writeRecord name false]) := by
    unfold deploy_main; rw [hm]; simp [hwrite]
  refine ⟨by rw [hm], by rw [hmain], by rw [hmain], fun n => ?_⟩
  rw [hmain]
  simp

/-- C3 witness: a failed write on `failWriteEnv` still yields a successful
deployment outcome, reported before the write, with no rollback. -/
theorem write_failure_keeps_deployment_success_witness :
    (deploy_model failWriteEnv "ep-x").1 = DeployResult.success "ep-x" ∧
    (deploy_main failWriteEnv "ep-x").2 =
      [MainEvent.reportSuccess "ep-x", MainEvent.writeRecord "ep-x" false] ∧
    (deploy_main failWriteEnv "ep-x").1 =
      Except.error "record write failed" ∧
    MainEvent.rollbackDelete "ep-x" ∉ (deploy_main failWriteEnv "ep-x").2 :=
  have h := write_failure_keeps_deployment_success failWriteEnv "ep-x" rfl rfl
  ⟨h.1, h.2.1, h.2.2.1, h.2.2.2 "ep-x"⟩

/-- C9: after a successful endpoint creation, the deployment outcome is
success with the endpoint name whatever the smoke test's outcome; exactly
one smoke-test invocation appears in the trace (no retry) and no teardown
is ever attempted. -/
theorem smoke_failure_no_rollback_one_attempt (env : DeployEnv)
    (name : String) (hcreate : env.createOk = Except.ok ()) :
    (deploy_model env name).1 = DeployResult.success name ∧
    (deploy_model env name).2.countP isPredictCall = 1 ∧
    ∀ n, DeployEvent.rollbackDelete n ∉ (deploy_model env name).2 := by
  have hm : deploy_model env name =
      (DeployResult.success name,
       [DeployEvent.createEndpoint name true,
        DeployEvent.predictCall (env.predictOk matches Except.ok _)]) := by
    unfold deploy_model; rw [hcreate]
  refine ⟨by rw [hm], ?_, fun n => ?_⟩
  · rw [hm]; simp [List.countP, List.countP.go, isPredictCall]
  · rw [hm]; simp

/-- C9 witness: on `failSmokeEnv` (smoke test raises) the deployment is
still a success, with exactly one smoke-test attempt and no rollback. -/
theorem smoke_failure_no_rollback_one_attempt_witness :
    (deploy_model failSmokeEnv "ep-y").1 = DeployResult.success "ep-y" ∧
    (deploy_model failSmokeEnv "ep-y").2.countP isPredictCall = 1 ∧
    DeployEvent.rollbackDelete "ep-y" ∉ (deploy_model failSmokeEnv "ep-y").2 :=
  have h := smoke_failure_no_rollback_one_attempt failSmokeEnv "ep-y" rfl
  ⟨h.1, h.2.1, h.2.2 "ep-y"⟩

end SMDeploy
